import Mathlib

/-!
Shallow embedding of the BESS (battery energy storage system) three-stage
optimizer in `src/optimizer.py`.  Each stage builds a linear program over a
96-quarter trading day; we embed the feasible region of each stage's LP as a
decidable-style predicate over an assignment of the model's decision
variables, translated constraint by constraint from the source, and we embed
the post-solve arithmetic (value retrieval, profit recomputation, combined
position vectors) as executable functions on rational numbers.

Indexing convention: pyomo variables are 1-indexed (quarters `1..96`, SOC
checkpoints `1..97`, hours `0..23`); Python lists (prices, prior positions)
are 0-indexed, and the source accesses them as `vec[q-1]` for pyomo index
`q`.  We keep both conventions: model variables are maps `ℕ → ℚ` read at
`1..97`, and input vectors are maps `ℕ → ℚ` read at `0..95`.
-/

namespace BessOptimizer

/-- Daily energy throughput limit, `volume_limit = energy_cap * n_cycles`
(source line 59 and the analogous lines 251, 446). -/
def volume_limit (energy_cap n_cycles : ℚ) : ℚ := energy_cap * n_cycles

/-- Decision variables of the Stage 1 (day-ahead auction) model:
`model.soc`, `model.cha_daa`, `model.dis_daa` (source lines 66-72). -/
structure Step1Vars where
  soc : ℕ → ℚ
  cha_daa : ℕ → ℚ
  dis_daa : ℕ → ℚ

namespace Step1

/-- Constraint 1.1: state of charge never above energy capacity. -/
def set_maximum_soc (energy_cap : ℚ) (m : Step1Vars) (q : ℕ) : Prop :=
  m.soc q ≤ energy_cap

/-- Constraint 1.2: state of charge never below 0. -/
def set_minimum_soc (m : Step1Vars) (q : ℕ) : Prop :=
  0 ≤ m.soc q

/-- Constraint 1.3: state of charge of the first quarter is 0. -/
def set_first_soc_to_0 (m : Step1Vars) : Prop :=
  m.soc 1 = 0

/-- Constraint 1.4: state of charge at checkpoint 97 is 0. -/
def set_last_soc_to_0 (m : Step1Vars) : Prop :=
  m.soc 97 = 0

/-- Constraint 1.5: SOC step, `soc[q+1] == soc[q] + power_cap/4*cha_daa[q]
- power_cap/4*dis_daa[q]` (source line 109). -/
def soc_step_constraint (power_cap : ℚ) (m : Step1Vars) (q : ℕ) : Prop :=
  m.soc (q + 1) = m.soc q + power_cap / 4 * m.cha_daa q - power_cap / 4 * m.dis_daa q

/-- Constraint 1.6: sum of all charges below the daily limit (source line 115). -/
def charge_cycle_limit (n_cycles energy_cap power_cap : ℚ) (m : Step1Vars) : Prop :=
  (∑ q in Finset.Icc 1 96, m.cha_daa q * power_cap / 4) ≤ volume_limit energy_cap n_cycles

/-- Constraint 1.7: sum of all discharges below the daily limit (source line 121). -/
def discharge_cycle_limit (n_cycles energy_cap power_cap : ℚ) (m : Step1Vars) : Prop :=
  (∑ q in Finset.Icc 1 96, m.dis_daa q * power_cap / 4) ≤ volume_limit energy_cap n_cycles

/-- Constraint 1.8 (first pair): `cha_daa[4q+1] == cha_daa[4q+2]` (source line 128). -/
def cha_daa_quarters_1_2_parity (m : Step1Vars) (q : ℕ) : Prop :=
  m.cha_daa (4 * q + 1) = m.cha_daa (4 * q + 2)

/-- Constraint 1.8 (second pair): `cha_daa[4q+2] == cha_daa[4q+3]` (source line 134). -/
def cha_daa_quarters_2_3_parity (m : Step1Vars) (q : ℕ) : Prop :=
  m.cha_daa (4 * q + 2) = m.cha_daa (4 * q + 3)

/-- Constraint 1.8 (third pair): `cha_daa[4q+3] == cha_daa[4q+4]` (source line 140). -/
def cha_daa_quarters_3_4_parity (m : Step1Vars) (q : ℕ) : Prop :=
  m.cha_daa (4 * q + 3) = m.cha_daa (4 * q + 4)

/-- Constraint 1.9 (first pair), source line 147.  NOTE: the source body reads
`model.cha_daa[4*q+1] == model.cha_daa[4*q+2]`, i.e. it constrains `cha_daa`,
not `dis_daa`, despite the function's name and docstring. -/
def dis_daa_quarters_1_2_parity (m : Step1Vars) (q : ℕ) : Prop :=
  m.cha_daa (4 * q + 1) = m.cha_daa (4 * q + 2)

/-- Constraint 1.9 (second pair), source line 153; the body again constrains
`cha_daa`. -/
def dis_daa_quarters_2_3_parity (m : Step1Vars) (q : ℕ) : Prop :=
  m.cha_daa (4 * q + 2) = m.cha_daa (4 * q + 3)

/-- Constraint 1.9 (third pair), source line 159; the body again constrains
`cha_daa`. -/
def dis_daa_quarters_3_4_parity (m : Step1Vars) (q : ℕ) : Prop :=
  m.cha_daa (4 * q + 3) = m.cha_daa (4 * q + 4)

/-- Variable bounds: `cha_daa`, `dis_daa` are declared with
`domain=NonNegativeReals, bounds=(0,1)` (source lines 69, 72). -/
def var_bounds (m : Step1Vars) : Prop :=
  ∀ q ∈ Finset.Icc 1 96,
    0 ≤ m.cha_daa q ∧ m.cha_daa q ≤ 1 ∧ 0 ≤ m.dis_daa q ∧ m.dis_daa q ≤ 1

/-- The feasible region of the Stage 1 LP: the conjunction of all constraints
applied to the model (source lines 165-177) together with the declared
variable bounds.  Quarter constraints range over `model.Q = 1..96`, SOC
constraints over `model.Q_plus_1 = 1..97`, parity constraints over
`model.H = 0..23`. -/
def Feasible (n_cycles energy_cap power_cap : ℚ) (m : Step1Vars) : Prop :=
  (∀ q ∈ Finset.Icc 1 97, set_maximum_soc energy_cap m q) ∧
  (∀ q ∈ Finset.Icc 1 97, set_minimum_soc m q) ∧
  set_first_soc_to_0 m ∧
  set_last_soc_to_0 m ∧
  (∀ q ∈ Finset.Icc 1 96, soc_step_constraint power_cap m q) ∧
  charge_cycle_limit n_cycles energy_cap power_cap m ∧
  discharge_cycle_limit n_cycles energy_cap power_cap m ∧
  (∀ h ∈ Finset.range 24, cha_daa_quarters_1_2_parity m h) ∧
  (∀ h ∈ Finset.range 24, cha_daa_quarters_2_3_parity m h) ∧
  (∀ h ∈ Finset.range 24, cha_daa_quarters_3_4_parity m h) ∧
  (∀ h ∈ Finset.range 24, dis_daa_quarters_1_2_parity m h) ∧
  (∀ h ∈ Finset.range 24, dis_daa_quarters_2_3_parity m h) ∧
  (∀ h ∈ Finset.range 24, dis_daa_quarters_3_4_parity m h) ∧
  var_bounds m

/-- The Stage 1 objective, `sum(power_cap/4 * daa_price_vector[q-1] *
(dis_daa[q] - cha_daa[q]))` over `model.Q` (source line 184). -/
def obj (power_cap : ℚ) (daa_price_vector : ℕ → ℚ) (m : Step1Vars) : ℚ :=
  ∑ q in Finset.Icc 1 96,
    power_cap / 4 * daa_price_vector (q - 1) * (m.dis_daa q - m.cha_daa q)

end Step1

/-- Post-solve retrieval of solved variable values (source lines 193-195,
379-383, 579-583): each returned vector is the list
`[var[q].value for q in range(1, n+1)]` of raw solver values, where `n` is
the length of the stage's price vector. -/
def solvedValues (value : ℕ → ℚ) (n : ℕ) : List ℚ :=
  (List.range n).map fun i => value (i + 1)

/-- Decision variables of the Stage 2 (intraday auction) model:
`model.soc`, `model.cha_ida`, `model.dis_ida`, `model.cha_ida_close`,
`model.dis_ida_close` (source lines 258-270). -/
structure Step2Vars where
  soc : ℕ → ℚ
  cha_ida : ℕ → ℚ
  dis_ida : ℕ → ℚ
  cha_ida_close : ℕ → ℚ
  dis_ida_close : ℕ → ℚ

namespace Step2

/-- Constraint 2.1: state of charge never above energy capacity. -/
def set_maximum_soc (energy_cap : ℚ) (m : Step2Vars) (q : ℕ) : Prop :=
  m.soc q ≤ energy_cap

/-- Constraint 2.2: state of charge never below 0. -/
def set_minimum_soc (m : Step2Vars) (q : ℕ) : Prop :=
  0 ≤ m.soc q

/-- Constraint 2.3: state of charge of the first quarter is 0. -/
def set_first_soc_to_0 (m : Step2Vars) : Prop :=
  m.soc 1 = 0

/-- Constraint 2.4: state of charge at checkpoint 97 is 0. -/
def set_last_soc_to_0 (m : Step2Vars) : Prop :=
  m.soc 97 = 0

/-- Constraint 2.5: SOC step with closing variables and Stage 1 priors
(source line 305). -/
def soc_step_constraint (power_cap : ℚ) (step1_cha_daa step1_dis_daa : ℕ → ℚ)
    (m : Step2Vars) (q : ℕ) : Prop :=
  m.soc (q + 1) = m.soc q + power_cap / 4 *
    (m.cha_ida q - m.dis_ida q + m.cha_ida_close q - m.dis_ida_close q +
      step1_cha_daa (q - 1) - step1_dis_daa (q - 1))

/-- Constraint 2.6: `(np.sum(step1_cha_daa) + sum cha_ida - sum dis_ida_close)
* power_cap/4 <= volume_limit` (source line 312); the prior sum runs over the
whole 96-entry Stage 1 list. -/
def charge_cycle_limit (n_cycles energy_cap power_cap : ℚ)
    (step1_cha_daa : ℕ → ℚ) (m : Step2Vars) : Prop :=
  ((∑ i in Finset.range 96, step1_cha_daa i) +
      (∑ q in Finset.Icc 1 96, m.cha_ida q) -
      (∑ q in Finset.Icc 1 96, m.dis_ida_close q)) * power_cap / 4 ≤
    volume_limit energy_cap n_cycles

/-- Constraint 2.7: `(np.sum(step1_dis_daa) + sum dis_ida - sum cha_ida_close)
* power_cap/4 <= volume_limit` (source line 319). -/
def discharge_cycle_limit (n_cycles energy_cap power_cap : ℚ)
    (step1_dis_daa : ℕ → ℚ) (m : Step2Vars) : Prop :=
  ((∑ i in Finset.range 96, step1_dis_daa i) +
      (∑ q in Finset.Icc 1 96, m.dis_ida q) -
      (∑ q in Finset.Icc 1 96, m.cha_ida_close q)) * power_cap / 4 ≤
    volume_limit energy_cap n_cycles

/-- Constraint 2.8: `cha_ida_close[q] <= step1_dis_daa[q-1]` (source line 326). -/
def cha_close_logic (step1_dis_daa : ℕ → ℚ) (m : Step2Vars) (q : ℕ) : Prop :=
  m.cha_ida_close q ≤ step1_dis_daa (q - 1)

/-- Constraint 2.9: `dis_ida_close[q] <= step1_cha_daa[q-1]` (source line 333). -/
def dis_close_logic (step1_cha_daa : ℕ → ℚ) (m : Step2Vars) (q : ℕ) : Prop :=
  m.dis_ida_close q ≤ step1_cha_daa (q - 1)

/-- Constraint 2.10: `cha_ida[q] + step1_cha_daa[q-1] <= 1` (source line 340). -/
def charge_rate_limit (step1_cha_daa : ℕ → ℚ) (m : Step2Vars) (q : ℕ) : Prop :=
  m.cha_ida q + step1_cha_daa (q - 1) ≤ 1

/-- Constraint 2.11: `dis_ida[q] + step1_dis_daa[q-1] <= 1` (source line 347). -/
def discharge_rate_limit (step1_dis_daa : ℕ → ℚ) (m : Step2Vars) (q : ℕ) : Prop :=
  m.dis_ida q + step1_dis_daa (q - 1) ≤ 1

/-- Variable bounds: all four trade vectors are declared with
`domain=NonNegativeReals, bounds=(0,1)` (source lines 261-270). -/
def var_bounds (m : Step2Vars) : Prop :=
  ∀ q ∈ Finset.Icc 1 96,
    (0 ≤ m.cha_ida q ∧ m.cha_ida q ≤ 1) ∧
    (0 ≤ m.dis_ida q ∧ m.dis_ida q ≤ 1) ∧
    (0 ≤ m.cha_ida_close q ∧ m.cha_ida_close q ≤ 1) ∧
    (0 ≤ m.dis_ida_close q ∧ m.dis_ida_close q ≤ 1)

/-- The feasible region of the Stage 2 LP: the conjunction of all constraints
applied to the model (source lines 353-363) together with the declared
variable bounds. -/
def Feasible (n_cycles energy_cap power_cap : ℚ)
    (step1_cha_daa step1_dis_daa : ℕ → ℚ) (m : Step2Vars) : Prop :=
  (∀ q ∈ Finset.Icc 1 97, set_maximum_soc energy_cap m q) ∧
  (∀ q ∈ Finset.Icc 1 97, set_minimum_soc m q) ∧
  set_first_soc_to_0 m ∧
  set_last_soc_to_0 m ∧
  (∀ q ∈ Finset.Icc 1 96, soc_step_constraint power_cap step1_cha_daa step1_dis_daa m q) ∧
  charge_cycle_limit n_cycles energy_cap power_cap step1_cha_daa m ∧
  discharge_cycle_limit n_cycles energy_cap power_cap step1_dis_daa m ∧
  (∀ q ∈ Finset.Icc 1 96, cha_close_logic step1_dis_daa m q) ∧
  (∀ q ∈ Finset.Icc 1 96, dis_close_logic step1_cha_daa m q) ∧
  (∀ q ∈ Finset.Icc 1 96, charge_rate_limit step1_cha_daa m q) ∧
  (∀ q ∈ Finset.Icc 1 96, discharge_rate_limit step1_dis_daa m q) ∧
  var_bounds m

/-- The Stage 2 objective, `sum(ida_price_vector[q-1] * power_cap/4 *
(dis_ida[q] + dis_ida_close[q] - cha_ida[q] - cha_ida_close[q]))` over
`model.Q` (source line 370). -/
def obj (power_cap : ℚ) (ida_price_vector : ℕ → ℚ) (m : Step2Vars) : ℚ :=
  ∑ q in Finset.Icc 1 96,
    ida_price_vector (q - 1) * power_cap / 4 *
      (m.dis_ida q + m.dis_ida_close q - m.cha_ida q - m.cha_ida_close q)

end Step2

/-- Decision variables of the Stage 3 (intraday continuous) model:
`model.soc`, `model.cha_idc`, `model.dis_idc`, `model.cha_idc_close`,
`model.dis_idc_close` (source lines 453-465). -/
structure Step3Vars where
  soc : ℕ → ℚ
  cha_idc : ℕ → ℚ
  dis_idc : ℕ → ℚ
  cha_idc_close : ℕ → ℚ
  dis_idc_close : ℕ → ℚ

namespace Step3

/-- Constraint 3.1: state of charge never above energy capacity. -/
def set_maximum_soc (energy_cap : ℚ) (m : Step3Vars) (q : ℕ) : Prop :=
  m.soc q ≤ energy_cap

/-- Constraint 3.2: state of charge never below 0. -/
def set_minimum_soc (m : Step3Vars) (q : ℕ) : Prop :=
  0 ≤ m.soc q

/-- Constraint 3.3: state of charge of the first quarter is 0. -/
def set_first_soc_to_0 (m : Step3Vars) : Prop :=
  m.soc 1 = 0

/-- Constraint 3.4: state of charge at checkpoint 97 is 0. -/
def set_last_soc_to_0 (m : Step3Vars) : Prop :=
  m.soc 97 = 0

/-- Constraint 3.5: SOC step with closing variables and Stage 2 combined
priors (source line 504). -/
def soc_step_constraint (power_cap : ℚ) (step2_cha_daaida step2_dis_daaida : ℕ → ℚ)
    (m : Step3Vars) (q : ℕ) : Prop :=
  m.soc (q + 1) = m.soc q + power_cap / 4 *
    (m.cha_idc q - m.dis_idc q + m.cha_idc_close q - m.dis_idc_close q +
      step2_cha_daaida (q - 1) - step2_dis_daaida (q - 1))

/-- Constraint 3.6, source line 511.  NOTE: the source function named
`charge_cycle_limit` in Stage 3 sums the DISCHARGE side:
`(np.sum(step2_dis_daaida) + sum dis_idc - sum cha_idc_close) * power_cap/4
<= volume_limit`. -/
def charge_cycle_limit (n_cycles energy_cap power_cap : ℚ)
    (step2_dis_daaida : ℕ → ℚ) (m : Step3Vars) : Prop :=
  ((∑ i in Finset.range 96, step2_dis_daaida i) +
      (∑ q in Finset.Icc 1 96, m.dis_idc q) -
      (∑ q in Finset.Icc 1 96, m.cha_idc_close q)) * power_cap / 4 ≤
    volume_limit energy_cap n_cycles

/-- Constraint 3.7, source line 518.  NOTE: the source function named
`discharge_cycle_limit` in Stage 3 sums the CHARGE side:
`(np.sum(step2_cha_daaida) + sum cha_idc - sum dis_idc_close) * power_cap/4
<= volume_limit`. -/
def discharge_cycle_limit (n_cycles energy_cap power_cap : ℚ)
    (step2_cha_daaida : ℕ → ℚ) (m : Step3Vars) : Prop :=
  ((∑ i in Finset.range 96, step2_cha_daaida i) +
      (∑ q in Finset.Icc 1 96, m.cha_idc q) -
      (∑ q in Finset.Icc 1 96, m.dis_idc_close q)) * power_cap / 4 ≤
    volume_limit energy_cap n_cycles

/-- Constraint 3.8: `cha_idc_close[q] <= step2_dis_daaida[q-1]` (source line 525). -/
def cha_close_logic (step2_dis_daaida : ℕ → ℚ) (m : Step3Vars) (q : ℕ) : Prop :=
  m.cha_idc_close q ≤ step2_dis_daaida (q - 1)

/-- Constraint 3.9: `dis_idc_close[q] <= step2_cha_daaida[q-1]` (source line 532). -/
def dis_close_logic (step2_cha_daaida : ℕ → ℚ) (m : Step3Vars) (q : ℕ) : Prop :=
  m.dis_idc_close q ≤ step2_cha_daaida (q - 1)

/-- Constraint 3.10: `cha_idc[q] + step2_cha_daaida[q-1] <= 1` (source line 539). -/
def charge_rate_limit (step2_cha_daaida : ℕ → ℚ) (m : Step3Vars) (q : ℕ) : Prop :=
  m.cha_idc q + step2_cha_daaida (q - 1) ≤ 1

/-- Constraint 3.11: `dis_idc[q] + step2_dis_daaida[q-1] <= 1` (source line 546). -/
def discharge_rate_limit (step2_dis_daaida : ℕ → ℚ) (m : Step3Vars) (q : ℕ) : Prop :=
  m.dis_idc q + step2_dis_daaida (q - 1) ≤ 1

/-- Variable bounds: all four trade vectors are declared with
`domain=NonNegativeReals, bounds=(0,1)` (source lines 456-465). -/
def var_bounds (m : Step3Vars) : Prop :=
  ∀ q ∈ Finset.Icc 1 96,
    (0 ≤ m.cha_idc q ∧ m.cha_idc q ≤ 1) ∧
    (0 ≤ m.dis_idc q ∧ m.dis_idc q ≤ 1) ∧
    (0 ≤ m.cha_idc_close q ∧ m.cha_idc_close q ≤ 1) ∧
    (0 ≤ m.dis_idc_close q ∧ m.dis_idc_close q ≤ 1)

/-- The feasible region of the Stage 3 LP: the conjunction of all constraints
applied to the model (source lines 552-563) together with the declared
variable bounds. -/
def Feasible (n_cycles energy_cap power_cap : ℚ)
    (step2_cha_daaida step2_dis_daaida : ℕ → ℚ) (m : Step3Vars) : Prop :=
  (∀ q ∈ Finset.Icc 1 97, set_maximum_soc energy_cap m q) ∧
  (∀ q ∈ Finset.Icc 1 97, set_minimum_soc m q) ∧
  set_first_soc_to_0 m ∧
  set_last_soc_to_0 m ∧
  (∀ q ∈ Finset.Icc 1 96, soc_step_constraint power_cap step2_cha_daaida step2_dis_daaida m q) ∧
  charge_cycle_limit n_cycles energy_cap power_cap step2_dis_daaida m ∧
  discharge_cycle_limit n_cycles energy_cap power_cap step2_cha_daaida m ∧
  (∀ q ∈ Finset.Icc 1 96, cha_close_logic step2_dis_daaida m q) ∧
  (∀ q ∈ Finset.Icc 1 96, dis_close_logic step2_cha_daaida m q) ∧
  (∀ q ∈ Finset.Icc 1 96, charge_rate_limit step2_cha_daaida m q) ∧
  (∀ q ∈ Finset.Icc 1 96, discharge_rate_limit step2_dis_daaida m q) ∧
  var_bounds m

/-- The Stage 3 objective, `sum(idc_price_vector[q-1] * power_cap/4 *
(dis_idc[q] + dis_idc_close[q] - cha_idc[q] - cha_idc_close[q]))` over
`model.Q` (source line 570). -/
def obj (power_cap : ℚ) (idc_price_vector : ℕ → ℚ) (m : Step3Vars) : ℚ :=
  ∑ q in Finset.Icc 1 96,
    idc_price_vector (q - 1) * power_cap / 4 *
      (m.dis_idc q + m.dis_idc_close q - m.cha_idc q - m.cha_idc_close q)

end Step3

/-- Stage 1 profit recomputation from the retrieved lists (source line 199):
`sum(power_cap/4 * daa_price_vector[q] * (step1_dis_daa[q] - step1_cha_daa[q]))`
over the Python indices of the price vector. -/
def step1_profit_daa (power_cap : ℚ)
    (daa_price_vector step1_dis_daa step1_cha_daa : List ℚ) : ℚ :=
  ∑ q in Finset.range daa_price_vector.length,
    power_cap / 4 * daa_price_vector.getD q 0 *
      (step1_dis_daa.getD q 0 - step1_cha_daa.getD q 0)

/-- Stage 2 combined charge vector (source line 393):
`step2_cha_daaida = np.asarray(step1_cha_daa) - step2_dis_ida_close + step2_cha_ida`,
an element-wise numpy expression over 96-entry arrays. -/
def step2_cha_daaida (step1_cha_daa step2_dis_ida_close step2_cha_ida : List ℚ) : List ℚ :=
  List.zipWith (· + ·) (List.zipWith (· - ·) step1_cha_daa step2_dis_ida_close) step2_cha_ida

/-- Stage 2 combined discharge vector (source line 394):
`step2_dis_daaida = np.asarray(step1_dis_daa) - step2_cha_ida_close + step2_dis_ida`. -/
def step2_dis_daaida (step1_dis_daa step2_cha_ida_close step2_dis_ida : List ℚ) : List ℚ :=
  List.zipWith (· + ·) (List.zipWith (· - ·) step1_dis_daa step2_cha_ida_close) step2_dis_ida

/-- Stage 3 combined charge vector (source line 593):
`step3_cha_daaidaidc = np.asarray(step2_cha_daaida) - step3_dis_idc_close + step3_cha_idc`. -/
def step3_cha_daaidaidc (step2_cha_daaida step3_dis_idc_close step3_cha_idc : List ℚ) : List ℚ :=
  List.zipWith (· + ·) (List.zipWith (· - ·) step2_cha_daaida step3_dis_idc_close) step3_cha_idc

/-- Stage 3 combined discharge vector (source line 594):
`step3_dis_daaidaidc = np.asarray(step2_dis_daaida) - step3_cha_idc_close + step3_dis_idc`. -/
def step3_dis_daaidaidc (step2_dis_daaida step3_cha_idc_close step3_dis_idc : List ℚ) : List ℚ :=
  List.zipWith (· + ·) (List.zipWith (· - ·) step2_dis_daaida step3_cha_idc_close) step3_dis_idc

/-- The all-zero map, standing for the zero prior-position vectors of Stage 1
and for zero-filled inputs in concrete instantiations. -/
def zeroFn : ℕ → ℚ := fun _ => 0

/-- The all-zero Stage 1 assignment (no trades, SOC identically 0). -/
def zeroStep1 : Step1Vars := ⟨zeroFn, zeroFn, zeroFn⟩

/-- The all-zero Stage 2 assignment. -/
def zeroStep2 : Step2Vars := ⟨zeroFn, zeroFn, zeroFn, zeroFn, zeroFn⟩

/-- The all-zero Stage 3 assignment. -/
def zeroStep3 : Step3Vars := ⟨zeroFn, zeroFn, zeroFn, zeroFn, zeroFn⟩

/-! Helper lemmas shared by several developments below. -/

/-- The all-zero assignment is Stage 1-feasible whenever the energy capacity
and the volume limit are nonnegative. -/
theorem zeroStep1_feasible (n e p : ℚ) (he : 0 ≤ e) (hv : 0 ≤ volume_limit e n) :
    Step1.Feasible n e p zeroStep1 := by
  refine ⟨?_, ?_, rfl, rfl, ?_, ?_, ?_, ?_, ?_, ?_, ?_, ?_, ?_, ?_⟩ <;>
    simp [Step1.set_maximum_soc, Step1.set_minimum_soc, Step1.soc_step_constraint,
      Step1.charge_cycle_limit, Step1.discharge_cycle_limit,
      Step1.cha_daa_quarters_1_2_parity, Step1.cha_daa_quarters_2_3_parity,
      Step1.cha_daa_quarters_3_4_parity, Step1.dis_daa_quarters_1_2_parity,
      Step1.dis_daa_quarters_2_3_parity, Step1.dis_daa_quarters_3_4_parity,
      Step1.var_bounds, zeroStep1, zeroFn, he, hv]

/-- The all-zero assignment with all-zero priors is Stage 2-feasible whenever
the energy capacity and the volume limit are nonnegative. -/
theorem zeroStep2_feasible (n e p : ℚ) (he : 0 ≤ e) (hv : 0 ≤ volume_limit e n) :
    Step2.Feasible n e p zeroFn zeroFn zeroStep2 := by
  refine ⟨?_, ?_, rfl, rfl, ?_, ?_, ?_, ?_, ?_, ?_, ?_, ?_⟩ <;>
    simp [Step2.set_maximum_soc, Step2.set_minimum_soc, Step2.soc_step_constraint,
      Step2.charge_cycle_limit, Step2.discharge_cycle_limit, Step2.cha_close_logic,
      Step2.dis_close_logic, Step2.charge_rate_limit, Step2.discharge_rate_limit,
      Step2.var_bounds, zeroStep2, zeroFn, he, hv]

/-- The all-zero assignment with all-zero priors is Stage 3-feasible whenever
the energy capacity and the volume limit are nonnegative. -/
theorem zeroStep3_feasible (n e p : ℚ) (he : 0 ≤ e) (hv : 0 ≤ volume_limit e n) :
    Step3.Feasible n e p zeroFn zeroFn zeroStep3 := by
  refine ⟨?_, ?_, rfl, rfl, ?_, ?_, ?_, ?_, ?_, ?_, ?_, ?_⟩ <;>
    simp [Step3.set_maximum_soc, Step3.set_minimum_soc, Step3.soc_step_constraint,
      Step3.charge_cycle_limit, Step3.discharge_cycle_limit, Step3.cha_close_logic,
      Step3.dis_close_logic, Step3.charge_rate_limit, Step3.discharge_rate_limit,
      Step3.var_bounds, zeroStep3, zeroFn, he, hv]

/-- Charge schedule of a concrete Stage 1 assignment: charge fully in hour 0
(quarters 1-4), nothing elsewhere. -/
def c1cha : ℕ → ℚ := fun q => if 1 ≤ q ∧ q ≤ 4 then 1 else 0

/-- Discharge schedule of the same assignment: discharge in quarters 5, 6, 9
and 10 only — the four quarters of hour 1 (quarters 5-8) are NOT equal. -/
def c1dis : ℕ → ℚ := fun q => if q = 5 ∨ q = 6 ∨ q = 9 ∨ q = 10 then 1 else 0

/-- The matching SOC trajectory for `power_cap = 4` (quarter quantum 1). -/
def c1soc : ℕ → ℚ := fun q =>
  if q ≤ 1 then 0
  else if q = 2 then 1
  else if q = 3 then 2
  else if q = 4 then 3
  else if q = 5 then 4
  else if q = 6 then 3
  else if q ≤ 9 then 2
  else if q = 10 then 1
  else 0

/-- A Stage 1 assignment that satisfies every constraint the source applies,
with within-hour unequal discharges. -/
def c1Vars : Step1Vars := ⟨c1soc, c1cha, c1dis⟩

set_option maxHeartbeats 2000000 in
/-- The concrete assignment is feasible for the Stage 1 model with
`n_cycles = 1`, `energy_cap = 4`, `power_cap = 4`. -/
theorem c1Vars_feasible : Step1.Feasible 1 4 4 c1Vars := by
  refine ⟨?_, ?_, ?_, ?_, ?_, ?_, ?_, ?_, ?_, ?_, ?_, ?_, ?_, ?_⟩
  · intro q hq
    simp only [Step1.set_maximum_soc, c1Vars, c1soc]
    split_ifs <;> norm_num
  · intro q hq
    simp only [Step1.set_minimum_soc, c1Vars, c1soc]
    split_ifs <;> norm_num
  · simp only [Step1.set_first_soc_to_0, c1Vars]
    norm_num [c1soc]
  · simp only [Step1.set_last_soc_to_0, c1Vars]
    norm_num [c1soc]
  · intro q hq
    obtain ⟨h1, h2⟩ := Finset.mem_Icc.mp hq
    simp only [Step1.soc_step_constraint, c1Vars]
    interval_cases q <;> norm_num [c1soc, c1cha, c1dis]
  · simp only [Step1.charge_cycle_limit, c1Vars, volume_limit]
    rw [show Finset.Icc 1 96 = Finset.Ico 1 97 from rfl, Finset.sum_Ico_eq_sum_range]
    norm_num [Finset.sum_range_succ, c1cha]
  · simp only [Step1.discharge_cycle_limit, c1Vars, volume_limit]
    rw [show Finset.Icc 1 96 = Finset.Ico 1 97 from rfl, Finset.sum_Ico_eq_sum_range]
    norm_num [Finset.sum_range_succ, c1dis]
  · intro h hh
    simp only [Finset.mem_range] at hh
    simp only [Step1.cha_daa_quarters_1_2_parity, c1Vars]
    interval_cases h <;> norm_num [c1cha]
  · intro h hh
    simp only [Finset.mem_range] at hh
    simp only [Step1.cha_daa_quarters_2_3_parity, c1Vars]
    interval_cases h <;> norm_num [c1cha]
  · intro h hh
    simp only [Finset.mem_range] at hh
    simp only [Step1.cha_daa_quarters_3_4_parity, c1Vars]
    interval_cases h <;> norm_num [c1cha]
  · intro h hh
    simp only [Finset.mem_range] at hh
    simp only [Step1.dis_daa_quarters_1_2_parity, c1Vars]
    interval_cases h <;> norm_num [c1cha]
  · intro h hh
    simp only [Finset.mem_range] at hh
    simp only [Step1.dis_daa_quarters_2_3_parity, c1Vars]
    interval_cases h <;> norm_num [c1cha]
  · intro h hh
    simp only [Finset.mem_range] at hh
    simp only [Step1.dis_daa_quarters_3_4_parity, c1Vars]
    interval_cases h <;> norm_num [c1cha]
  · intro q hq
    simp only [c1Vars, c1cha, c1dis]
    refine ⟨?_, ?_, ?_, ?_⟩ <;> (split_ifs <;> norm_num)

/-- C1: the claim states that in every feasible Stage 1 solution the four
within-hour discharge values are equal.  The code violates this: its
Constraint 1.9 family (`dis_daa_quarters_*_parity`, source lines 142-159)
constrains `cha_daa` instead of `dis_daa`, so the concrete feasible
assignment `c1Vars` (inputs `n_cycles = 1`, `energy_cap = 4`,
`power_cap = 4`) has hour-1 discharges `1, 1, 0, 0`, which are not all
equal — contradicting the constraint family's own name and docstring. -/
theorem c1_hourly_discharge_parity_violated :
    Step1.Feasible 1 4 4 c1Vars ∧
      ¬(c1Vars.dis_daa (4 * 1 + 1) = c1Vars.dis_daa (4 * 1 + 2) ∧
        c1Vars.dis_daa (4 * 1 + 2) = c1Vars.dis_daa (4 * 1 + 3) ∧
        c1Vars.dis_daa (4 * 1 + 3) = c1Vars.dis_daa (4 * 1 + 4)) := by
  refine ⟨c1Vars_feasible, fun h => ?_⟩
  have h6 := h.2.1
  norm_num [c1Vars, c1dis] at h6

/-- C2: in every feasible solution of each stage's model, the SOC step law
holds exactly for every quarter `q` in `1..96`: for Stage 1,
`soc[q+1] = soc[q] + (power_cap/4)*(charge[q] - discharge[q])`; for Stages 2
and 3, `soc[q+1] = soc[q] + (power_cap/4)*(charge[q] - discharge[q] +
charge_close[q] - discharge_close[q] + prior_charge[q] - prior_discharge[q])`. -/
theorem c2_soc_step_conservation (n e p : ℚ) (pc pd cc cd : ℕ → ℚ)
    (m1 : Step1Vars) (m2 : Step2Vars) (m3 : Step3Vars) :
    (Step1.Feasible n e p m1 → ∀ q ∈ Finset.Icc 1 96,
      m1.soc (q + 1) = m1.soc q + p / 4 * (m1.cha_daa q - m1.dis_daa q)) ∧
    (Step2.Feasible n e p pc pd m2 → ∀ q ∈ Finset.Icc 1 96,
      m2.soc (q + 1) = m2.soc q + p / 4 *
        (m2.cha_ida q - m2.dis_ida q + m2.cha_ida_close q - m2.dis_ida_close q +
          pc (q - 1) - pd (q - 1))) ∧
    (Step3.Feasible n e p cc cd m3 → ∀ q ∈ Finset.Icc 1 96,
      m3.soc (q + 1) = m3.soc q + p / 4 *
        (m3.cha_idc q - m3.dis_idc q + m3.cha_idc_close q - m3.dis_idc_close q +
          cc (q - 1) - cd (q - 1))) := by
  refine ⟨fun h q hq => ?_, fun h q hq => ?_, fun h q hq => ?_⟩
  · have hs := h.2.2.2.2.1 q hq
    unfold Step1.soc_step_constraint at hs
    rw [hs]; ring
  · exact h.2.2.2.2.1 q hq
  · exact h.2.2.2.2.1 q hq

/-- Witness for C2 at the concrete inputs `n_cycles = 1`, `energy_cap = 4`,
`power_cap = 4`, zero priors, and the all-zero assignments of all three
stages. -/
theorem c2_soc_step_conservation_witness :
    (∀ q ∈ Finset.Icc 1 96, zeroStep1.soc (q + 1) =
      zeroStep1.soc q + (4:ℚ) / 4 * (zeroStep1.cha_daa q - zeroStep1.dis_daa q)) ∧
    (∀ q ∈ Finset.Icc 1 96, zeroStep2.soc (q + 1) =
      zeroStep2.soc q + (4:ℚ) / 4 *
        (zeroStep2.cha_ida q - zeroStep2.dis_ida q + zeroStep2.cha_ida_close q -
          zeroStep2.dis_ida_close q + zeroFn (q - 1) - zeroFn (q - 1))) ∧
    (∀ q ∈ Finset.Icc 1 96, zeroStep3.soc (q + 1) =
      zeroStep3.soc q + (4:ℚ) / 4 *
        (zeroStep3.cha_idc q - zeroStep3.dis_idc q + zeroStep3.cha_idc_close q -
          zeroStep3.dis_idc_close q + zeroFn (q - 1) - zeroFn (q - 1))) := by
  have h := c2_soc_step_conservation 1 4 4 zeroFn zeroFn zeroFn zeroFn
    zeroStep1 zeroStep2 zeroStep3
  exact ⟨h.1 (zeroStep1_feasible 1 4 4 (by norm_num) (by norm_num [volume_limit])),
    h.2.1 (zeroStep2_feasible 1 4 4 (by norm_num) (by norm_num [volume_limit])),
    h.2.2 (zeroStep3_feasible 1 4 4 (by norm_num) (by norm_num [volume_limit]))⟩

/-- Helper: entry `i` of the element-wise numpy expression
`prior - close + new` embedded as nested `zipWith`. -/
theorem combine_getD (a b c : List ℚ) (i : ℕ)
    (h : i < a.length) (h2 : i < b.length) (h3 : i < c.length) :
    (List.zipWith (· + ·) (List.zipWith (· - ·) a b) c).getD i 0 =
      a.getD i 0 - b.getD i 0 + c.getD i 0 := by
  simp only [List.getD_eq_getElem?_getD, List.getElem?_zipWith,
    List.getElem?_eq_getElem h, List.getElem?_eq_getElem h2, List.getElem?_eq_getElem h3]
  rfl

/-- C3: for 96-entry solver outputs, the combined vectors returned by
Stage 2 and Stage 3 satisfy, element-wise for every quarter,
`combined_charge[q] = prior_charge[q] - discharge_close[q] + charge[q]` and
`combined_discharge[q] = prior_discharge[q] - charge_close[q] + discharge[q]`,
exactly. -/
theorem c3_combined_vector_identity
    (prior_cha prior_dis close_dis close_cha new_cha new_dis : List ℚ)
    (hpc : prior_cha.length = 96) (hpd : prior_dis.length = 96)
    (hdc : close_dis.length = 96) (hcc : close_cha.length = 96)
    (hnc : new_cha.length = 96) (hnd : new_dis.length = 96) :
    ∀ q < 96,
      (step2_cha_daaida prior_cha close_dis new_cha).getD q 0 =
        prior_cha.getD q 0 - close_dis.getD q 0 + new_cha.getD q 0 ∧
      (step2_dis_daaida prior_dis close_cha new_dis).getD q 0 =
        prior_dis.getD q 0 - close_cha.getD q 0 + new_dis.getD q 0 ∧
      (step3_cha_daaidaidc prior_cha close_dis new_cha).getD q 0 =
        prior_cha.getD q 0 - close_dis.getD q 0 + new_cha.getD q 0 ∧
      (step3_dis_daaidaidc prior_dis close_cha new_dis).getD q 0 =
        prior_dis.getD q 0 - close_cha.getD q 0 + new_dis.getD q 0 := by
  intro q hq
  exact ⟨combine_getD _ _ _ q (hpc ▸ hq) (hdc ▸ hq) (hnc ▸ hq),
    combine_getD _ _ _ q (hpd ▸ hq) (hcc ▸ hq) (hnd ▸ hq),
    combine_getD _ _ _ q (hpc ▸ hq) (hdc ▸ hq) (hnc ▸ hq),
    combine_getD _ _ _ q (hpd ▸ hq) (hcc ▸ hq) (hnd ▸ hq)⟩

/-- Witness for C3 at concrete 96-entry vectors and quarter 0. -/
theorem c3_combined_vector_identity_witness :
    (step2_cha_daaida (List.replicate 96 (1:ℚ)) (List.replicate 96 (1/2))
        (List.replicate 96 (1/4))).getD 0 0 =
      (List.replicate 96 (1:ℚ)).getD 0 0 - (List.replicate 96 (1/2:ℚ)).getD 0 0 +
        (List.replicate 96 (1/4:ℚ)).getD 0 0 ∧
    (step2_dis_daaida (List.replicate 96 (1/3:ℚ)) (List.replicate 96 (1/6))
        (List.replicate 96 (1/5))).getD 0 0 =
      (List.replicate 96 (1/3:ℚ)).getD 0 0 - (List.replicate 96 (1/6:ℚ)).getD 0 0 +
        (List.replicate 96 (1/5:ℚ)).getD 0 0 ∧
    (step3_cha_daaidaidc (List.replicate 96 (1:ℚ)) (List.replicate 96 (1/2))
        (List.replicate 96 (1/4))).getD 0 0 =
      (List.replicate 96 (1:ℚ)).getD 0 0 - (List.replicate 96 (1/2:ℚ)).getD 0 0 +
        (List.replicate 96 (1/4:ℚ)).getD 0 0 ∧
    (step3_dis_daaidaidc (List.replicate 96 (1/3:ℚ)) (List.replicate 96 (1/6))
        (List.replicate 96 (1/5))).getD 0 0 =
      (List.replicate 96 (1/3:ℚ)).getD 0 0 - (List.replicate 96 (1/6:ℚ)).getD 0 0 +
        (List.replicate 96 (1/5:ℚ)).getD 0 0 :=
  c3_combined_vector_identity
    (List.replicate 96 (1:ℚ)) (List.replicate 96 (1/3)) (List.replicate 96 (1/2))
    (List.replicate 96 (1/6)) (List.replicate 96 (1/4)) (List.replicate 96 (1/5))
    (by simp) (by simp) (by simp) (by simp) (by simp) (by simp) 0 (by norm_num)

/-- C4: in every stage's model, every feasible solution satisfies both
cycle-budget inequalities: cumulative charged energy (prior charge plus new
charges minus discharge-closes, times `power_cap/4`) is at most
`volume_limit = energy_cap * n_cycles`, and symmetrically for discharged
energy.  For Stage 1 the priors and closing variables are absent. -/
theorem c4_cycle_budget (n e p : ℚ) (pc pd : ℕ → ℚ)
    (m1 : Step1Vars) (m2 : Step2Vars) (m3 : Step3Vars) :
    (Step1.Feasible n e p m1 →
      (∑ q in Finset.Icc 1 96, m1.cha_daa q * p / 4) ≤ volume_limit e n ∧
      (∑ q in Finset.Icc 1 96, m1.dis_daa q * p / 4) ≤ volume_limit e n) ∧
    (Step2.Feasible n e p pc pd m2 →
      ((∑ i in Finset.range 96, pc i) + (∑ q in Finset.Icc 1 96, m2.cha_ida q) -
        (∑ q in Finset.Icc 1 96, m2.dis_ida_close q)) * p / 4 ≤ volume_limit e n ∧
      ((∑ i in Finset.range 96, pd i) + (∑ q in Finset.Icc 1 96, m2.dis_ida q) -
        (∑ q in Finset.Icc 1 96, m2.cha_ida_close q)) * p / 4 ≤ volume_limit e n) ∧
    (Step3.Feasible n e p pc pd m3 →
      ((∑ i in Finset.range 96, pc i) + (∑ q in Finset.Icc 1 96, m3.cha_idc q) -
        (∑ q in Finset.Icc 1 96, m3.dis_idc_close q)) * p / 4 ≤ volume_limit e n ∧
      ((∑ i in Finset.range 96, pd i) + (∑ q in Finset.Icc 1 96, m3.dis_idc q) -
        (∑ q in Finset.Icc 1 96, m3.cha_idc_close q)) * p / 4 ≤ volume_limit e n) := by
  refine ⟨fun h => ?_, fun h => ?_, fun h => ?_⟩
  · exact ⟨h.2.2.2.2.2.1, h.2.2.2.2.2.2.1⟩
  · exact ⟨h.2.2.2.2.2.1, h.2.2.2.2.2.2.1⟩
  · exact ⟨h.2.2.2.2.2.2.1, h.2.2.2.2.2.1⟩

/-- Witness for C4 at the concrete inputs `n_cycles = 1`, `energy_cap = 4`,
`power_cap = 4`, zero priors, and the all-zero assignments. -/
theorem c4_cycle_budget_witness :
    ((∑ q in Finset.Icc 1 96, zeroStep1.cha_daa q * 4 / 4) ≤ volume_limit 4 1 ∧
      (∑ q in Finset.Icc 1 96, zeroStep1.dis_daa q * 4 / 4) ≤ volume_limit 4 1) ∧
    (((∑ i in Finset.range 96, zeroFn i) + (∑ q in Finset.Icc 1 96, zeroStep2.cha_ida q) -
        (∑ q in Finset.Icc 1 96, zeroStep2.dis_ida_close q)) * 4 / 4 ≤ volume_limit 4 1 ∧
      ((∑ i in Finset.range 96, zeroFn i) + (∑ q in Finset.Icc 1 96, zeroStep2.dis_ida q) -
        (∑ q in Finset.Icc 1 96, zeroStep2.cha_ida_close q)) * 4 / 4 ≤ volume_limit 4 1) ∧
    (((∑ i in Finset.range 96, zeroFn i) + (∑ q in Finset.Icc 1 96, zeroStep3.cha_idc q) -
        (∑ q in Finset.Icc 1 96, zeroStep3.dis_idc_close q)) * 4 / 4 ≤ volume_limit 4 1 ∧
      ((∑ i in Finset.range 96, zeroFn i) + (∑ q in Finset.Icc 1 96, zeroStep3.dis_idc q) -
        (∑ q in Finset.Icc 1 96, zeroStep3.cha_idc_close q)) * 4 / 4 ≤ volume_limit 4 1) := by
  have h := c4_cycle_budget 1 4 4 zeroFn zeroFn zeroStep1 zeroStep2 zeroStep3
  exact ⟨h.1 (zeroStep1_feasible 1 4 4 (by norm_num) (by norm_num [volume_limit])),
    h.2.1 (zeroStep2_feasible 1 4 4 (by norm_num) (by norm_num [volume_limit])),
    h.2.2 (zeroStep3_feasible 1 4 4 (by norm_num) (by norm_num [volume_limit]))⟩

/-- C5: in the Stage 2 and Stage 3 models, every feasible solution has
`charge_close[q] ≤ prior_discharge[q]` and
`discharge_close[q] ≤ prior_charge[q]` for every quarter `q`, where the
priors are the previous stage's (combined) vectors. -/
theorem c5_closing_legality (n e p : ℚ) (pc pd : ℕ → ℚ)
    (m2 : Step2Vars) (m3 : Step3Vars) :
    (Step2.Feasible n e p pc pd m2 → ∀ q ∈ Finset.Icc 1 96,
      m2.cha_ida_close q ≤ pd (q - 1) ∧ m2.dis_ida_close q ≤ pc (q - 1)) ∧
    (Step3.Feasible n e p pc pd m3 → ∀ q ∈ Finset.Icc 1 96,
      m3.cha_idc_close q ≤ pd (q - 1) ∧ m3.dis_idc_close q ≤ pc (q - 1)) := by
  refine ⟨fun h q hq => ?_, fun h q hq => ?_⟩
  · exact ⟨h.2.2.2.2.2.2.2.1 q hq, h.2.2.2.2.2.2.2.2.1 q hq⟩
  · exact ⟨h.2.2.2.2.2.2.2.1 q hq, h.2.2.2.2.2.2.2.2.1 q hq⟩

/-- Witness for C5 at the concrete inputs `n_cycles = 1`, `energy_cap = 4`,
`power_cap = 4`, zero priors, and the all-zero assignments. -/
theorem c5_closing_legality_witness :
    (∀ q ∈ Finset.Icc 1 96,
      zeroStep2.cha_ida_close q ≤ zeroFn (q - 1) ∧
        zeroStep2.dis_ida_close q ≤ zeroFn (q - 1)) ∧
    (∀ q ∈ Finset.Icc 1 96,
      zeroStep3.cha_idc_close q ≤ zeroFn (q - 1) ∧
        zeroStep3.dis_idc_close q ≤ zeroFn (q - 1)) := by
  have h := c5_closing_legality 1 4 4 zeroFn zeroFn zeroStep2 zeroStep3
  exact ⟨h.1 (zeroStep2_feasible 1 4 4 (by norm_num) (by norm_num [volume_limit])),
    h.2 (zeroStep3_feasible 1 4 4 (by norm_num) (by norm_num [volume_limit]))⟩

/-- C7: for identical inputs (scalars, price vector, prior vectors), the LP
built by Stage 3 has the same feasible region and the same objective as the
LP built by Stage 2 under the positional correspondence of decision
variables: the full constraint sets are equivalent as conjunctions (Stage 3
only swaps the bodies of the two cycle-budget constraints between the names
`charge_cycle_limit` and `discharge_cycle_limit`, leaving the conjunction
unchanged), and the objectives coincide. -/
theorem c7_stage3_equals_stage2 (n e p : ℚ) (pc pd price : ℕ → ℚ)
    (soc cha dis chaC disC : ℕ → ℚ) :
    (Step2.Feasible n e p pc pd ⟨soc, cha, dis, chaC, disC⟩ ↔
      Step3.Feasible n e p pc pd ⟨soc, cha, dis, chaC, disC⟩) ∧
    Step2.obj p price ⟨soc, cha, dis, chaC, disC⟩ =
      Step3.obj p price ⟨soc, cha, dis, chaC, disC⟩ := by
  refine ⟨⟨fun h => ⟨h.1, h.2.1, h.2.2.1, h.2.2.2.1, h.2.2.2.2.1,
      h.2.2.2.2.2.2.1, h.2.2.2.2.2.1, h.2.2.2.2.2.2.2⟩,
    fun h => ⟨h.1, h.2.1, h.2.2.1, h.2.2.2.1, h.2.2.2.2.1,
      h.2.2.2.2.2.2.1, h.2.2.2.2.2.1, h.2.2.2.2.2.2.2⟩⟩, rfl⟩

/-- C10: whenever the prior vectors lie in `[0,1]` entrywise and an
assignment satisfies the closing-legality, combined-rate, and variable-bound
constraints of Stage 2 (respectively Stage 3), the combined position vectors
`prior_charge - discharge_close + charge` and
`prior_discharge - charge_close + discharge` lie in `[0,1]` entrywise, so
each stage's output satisfies the `[0,1]` invariant it assumes of its
input. -/
theorem c10_combined_in_unit_interval (pc pd : ℕ → ℚ)
    (m2 : Step2Vars) (m3 : Step3Vars) :
    ((∀ q ∈ Finset.Icc 1 96, 0 ≤ pc (q - 1) ∧ pc (q - 1) ≤ 1) →
     (∀ q ∈ Finset.Icc 1 96, 0 ≤ pd (q - 1) ∧ pd (q - 1) ≤ 1) →
     (∀ q ∈ Finset.Icc 1 96, Step2.cha_close_logic pd m2 q) →
     (∀ q ∈ Finset.Icc 1 96, Step2.dis_close_logic pc m2 q) →
     (∀ q ∈ Finset.Icc 1 96, Step2.charge_rate_limit pc m2 q) →
     (∀ q ∈ Finset.Icc 1 96, Step2.discharge_rate_limit pd m2 q) →
     Step2.var_bounds m2 →
     ∀ q ∈ Finset.Icc 1 96,
       (0 ≤ pc (q - 1) - m2.dis_ida_close q + m2.cha_ida q ∧
         pc (q - 1) - m2.dis_ida_close q + m2.cha_ida q ≤ 1) ∧
       (0 ≤ pd (q - 1) - m2.cha_ida_close q + m2.dis_ida q ∧
         pd (q - 1) - m2.cha_ida_close q + m2.dis_ida q ≤ 1)) ∧
    ((∀ q ∈ Finset.Icc 1 96, 0 ≤ pc (q - 1) ∧ pc (q - 1) ≤ 1) →
     (∀ q ∈ Finset.Icc 1 96, 0 ≤ pd (q - 1) ∧ pd (q - 1) ≤ 1) →
     (∀ q ∈ Finset.Icc 1 96, Step3.cha_close_logic pd m3 q) →
     (∀ q ∈ Finset.Icc 1 96, Step3.dis_close_logic pc m3 q) →
     (∀ q ∈ Finset.Icc 1 96, Step3.charge_rate_limit pc m3 q) →
     (∀ q ∈ Finset.Icc 1 96, Step3.discharge_rate_limit pd m3 q) →
     Step3.var_bounds m3 →
     ∀ q ∈ Finset.Icc 1 96,
       (0 ≤ pc (q - 1) - m3.dis_idc_close q + m3.cha_idc q ∧
         pc (q - 1) - m3.dis_idc_close q + m3.cha_idc q ≤ 1) ∧
       (0 ≤ pd (q - 1) - m3.cha_idc_close q + m3.dis_idc q ∧
         pd (q - 1) - m3.cha_idc_close q + m3.dis_idc q ≤ 1)) := by
  constructor
  · intro hpc hpd hcc hdc hcr hdr hb q hq
    have h1 := hcc q hq
    have h2 := hdc q hq
    have h3 := hcr q hq
    have h4 := hdr q hq
    have h5 := hb q hq
    unfold Step2.cha_close_logic at h1
    unfold Step2.dis_close_logic at h2
    unfold Step2.charge_rate_limit at h3
    unfold Step2.discharge_rate_limit at h4
    obtain ⟨⟨hc0, hc1⟩, ⟨hd0, hd1⟩, ⟨hcc0, hcc1⟩, ⟨hdc0, hdc1⟩⟩ := h5
    exact ⟨⟨by linarith, by linarith⟩, ⟨by linarith, by linarith⟩⟩
  · intro hpc hpd hcc hdc hcr hdr hb q hq
    have h1 := hcc q hq
    have h2 := hdc q hq
    have h3 := hcr q hq
    have h4 := hdr q hq
    have h5 := hb q hq
    unfold Step3.cha_close_logic at h1
    unfold Step3.dis_close_logic at h2
    unfold Step3.charge_rate_limit at h3
    unfold Step3.discharge_rate_limit at h4
    obtain ⟨⟨hc0, hc1⟩, ⟨hd0, hd1⟩, ⟨hcc0, hcc1⟩, ⟨hdc0, hdc1⟩⟩ := h5
    exact ⟨⟨by linarith, by linarith⟩, ⟨by linarith, by linarith⟩⟩

/-- Witness for C10 at zero priors and the all-zero assignments. -/
theorem c10_combined_in_unit_interval_witness :
    (∀ q ∈ Finset.Icc 1 96,
      (0 ≤ zeroFn (q - 1) - zeroStep2.dis_ida_close q + zeroStep2.cha_ida q ∧
        zeroFn (q - 1) - zeroStep2.dis_ida_close q + zeroStep2.cha_ida q ≤ 1) ∧
      (0 ≤ zeroFn (q - 1) - zeroStep2.cha_ida_close q + zeroStep2.dis_ida q ∧
        zeroFn (q - 1) - zeroStep2.cha_ida_close q + zeroStep2.dis_ida q ≤ 1)) ∧
    (∀ q ∈ Finset.Icc 1 96,
      (0 ≤ zeroFn (q - 1) - zeroStep3.dis_idc_close q + zeroStep3.cha_idc q ∧
        zeroFn (q - 1) - zeroStep3.dis_idc_close q + zeroStep3.cha_idc q ≤ 1) ∧
      (0 ≤ zeroFn (q - 1) - zeroStep3.cha_idc_close q + zeroStep3.dis_idc q ∧
        zeroFn (q - 1) - zeroStep3.cha_idc_close q + zeroStep3.dis_idc q ≤ 1)) := by
  have h := c10_combined_in_unit_interval zeroFn zeroFn zeroStep2 zeroStep3
  constructor
  · exact h.1 (fun q hq => by norm_num [zeroFn]) (fun q hq => by norm_num [zeroFn])
      (fun q hq => by norm_num [Step2.cha_close_logic, zeroStep2, zeroFn])
      (fun q hq => by norm_num [Step2.dis_close_logic, zeroStep2, zeroFn])
      (fun q hq => by norm_num [Step2.charge_rate_limit, zeroStep2, zeroFn])
      (fun q hq => by norm_num [Step2.discharge_rate_limit, zeroStep2, zeroFn])
      (fun q hq => by norm_num [zeroStep2, zeroFn])
  · exact h.2 (fun q hq => by norm_num [zeroFn]) (fun q hq => by norm_num [zeroFn])
      (fun q hq => by norm_num [Step3.cha_close_logic, zeroStep3, zeroFn])
      (fun q hq => by norm_num [Step3.dis_close_logic, zeroStep3, zeroFn])
      (fun q hq => by norm_num [Step3.charge_rate_limit, zeroStep3, zeroFn])
      (fun q hq => by norm_num [Step3.discharge_rate_limit, zeroStep3, zeroFn])
      (fun q hq => by norm_num [zeroStep3, zeroFn])

/-- Helper: entry `i < n` of a retrieved value list is the raw solver value
at pyomo index `i + 1`. -/
theorem solvedValues_getD (v : ℕ → ℚ) (n i : ℕ) (h : i < n) :
    (solvedValues v n).getD i 0 = v (i + 1) := by
  simp [solvedValues, List.getD_eq_getElem?_getD, List.getElem?_map,
    List.getElem?_range h]

/-- A Stage 1 assignment with full simultaneous charge and discharge in every
quarter and SOC identically zero. -/
def c6Vars : Step1Vars := ⟨zeroFn, fun _ => 1, fun _ => 1⟩

/-- C6 counterexample: with `power_cap = 0` (a non-positive input) and
`energy_cap = 4`, `n_cycles = 1`, the assignment `c6Vars` is feasible for
the Stage 1 model although its charge values are nonzero — refuting the
claim that every feasible solution is all-zero whenever one of the three
scalars is non-positive. -/
theorem c6_nonpositive_power_cap_counterexample :
    Step1.Feasible 1 4 0 c6Vars ∧ c6Vars.cha_daa 1 ≠ 0 := by
  constructor
  · refine ⟨?_, ?_, rfl, rfl, ?_, ?_, ?_, ?_, ?_, ?_, ?_, ?_, ?_, ?_⟩ <;>
      simp [Step1.set_maximum_soc, Step1.set_minimum_soc, Step1.soc_step_constraint,
        Step1.charge_cycle_limit, Step1.discharge_cycle_limit,
        Step1.cha_daa_quarters_1_2_parity, Step1.cha_daa_quarters_2_3_parity,
        Step1.cha_daa_quarters_3_4_parity, Step1.dis_daa_quarters_1_2_parity,
        Step1.dis_daa_quarters_2_3_parity, Step1.dis_daa_quarters_3_4_parity,
        Step1.var_bounds, c6Vars, zeroFn, volume_limit]
  · norm_num [c6Vars]

/-- C6 amended: when `energy_cap ≥ 0`, `energy_cap * n_cycles = 0` and
`power_cap > 0` (in particular `n_cycles = 0` with positive caps), the
Stage 1 model admits the all-zero assignment as a feasible solution, every
feasible solution has all charge and discharge values 0 and SOC identically
0, and the recomputed profit is 0 for every price vector.  (The unrestricted
claim fails: for `energy_cap < 0` or `energy_cap * n_cycles < 0` the model
is infeasible so the all-zero assignment is not a solution, and for
`power_cap ≤ 0` nonzero positions remain feasible.) -/
theorem c6_degenerate_inputs_force_zero (n e p : ℚ)
    (he : 0 ≤ e) (hv : e * n = 0) (hp : 0 < p) :
    Step1.Feasible n e p zeroStep1 ∧
    ∀ m : Step1Vars, Step1.Feasible n e p m →
      (∀ q ∈ Finset.Icc 1 96, m.cha_daa q = 0 ∧ m.dis_daa q = 0) ∧
      (∀ q ∈ Finset.Icc 1 97, m.soc q = 0) ∧
      ∀ daa_price_vector : List ℚ,
        step1_profit_daa p daa_price_vector
          (solvedValues m.dis_daa 96) (solvedValues m.cha_daa 96) = 0 := by
  constructor
  · exact zeroStep1_feasible n e p he (by rw [volume_limit, hv])
  · intro m hm
    have hbounds := hm.2.2.2.2.2.2.2.2.2.2.2.2.2
    have hcha : ∀ q ∈ Finset.Icc 1 96, m.cha_daa q = 0 := by
      have hle := hm.2.2.2.2.2.1
      unfold Step1.charge_cycle_limit volume_limit at hle
      rw [hv] at hle
      have hnn : ∀ q ∈ Finset.Icc 1 96, 0 ≤ m.cha_daa q * p / 4 := by
        intro q hq
        have h0 := (hbounds q hq).1
        positivity
      have hz := le_antisymm hle (Finset.sum_nonneg hnn)
      intro q hq
      have ht := (Finset.sum_eq_zero_iff_of_nonneg hnn).mp hz q hq
      have hmul : m.cha_daa q * p = 0 :=
        (div_eq_zero_iff.mp ht).resolve_right (by norm_num)
      exact (mul_eq_zero.mp hmul).resolve_right (ne_of_gt hp)
    have hdis : ∀ q ∈ Finset.Icc 1 96, m.dis_daa q = 0 := by
      have hle := hm.2.2.2.2.2.2.1
      unfold Step1.discharge_cycle_limit volume_limit at hle
      rw [hv] at hle
      have hnn : ∀ q ∈ Finset.Icc 1 96, 0 ≤ m.dis_daa q * p / 4 := by
        intro q hq
        have h0 := (hbounds q hq).2.2.1
        positivity
      have hz := le_antisymm hle (Finset.sum_nonneg hnn)
      intro q hq
      have ht := (Finset.sum_eq_zero_iff_of_nonneg hnn).mp hz q hq
      have hmul : m.dis_daa q * p = 0 :=
        (div_eq_zero_iff.mp ht).resolve_right (by norm_num)
      exact (mul_eq_zero.mp hmul).resolve_right (ne_of_gt hp)
    have hsoc : ∀ q, 1 ≤ q → q ≤ 97 → m.soc q = 0 := by
      intro q hq1
      induction q, hq1 using Nat.le_induction with
      | base => exact fun _ => hm.2.2.1
      | succ q hq ih =>
        intro hq97
        have hq96 : q ∈ Finset.Icc 1 96 := Finset.mem_Icc.mpr ⟨hq, by omega⟩
        have hstep := hm.2.2.2.2.1 q hq96
        unfold Step1.soc_step_constraint at hstep
        rw [hstep, ih (by omega), hcha q hq96, hdis q hq96]
        ring
    refine ⟨fun q hq => ⟨hcha q hq, hdis q hq⟩,
      fun q hq => by
        obtain ⟨h1, h2⟩ := Finset.mem_Icc.mp hq
        exact hsoc q h1 h2, ?_⟩
    intro price
    unfold step1_profit_daa
    apply Finset.sum_eq_zero
    intro q hq
    by_cases hq96 : q < 96
    · rw [solvedValues_getD m.dis_daa 96 q hq96, solvedValues_getD m.cha_daa 96 q hq96]
      have hmem : q + 1 ∈ Finset.Icc 1 96 := Finset.mem_Icc.mpr ⟨by omega, by omega⟩
      rw [hcha (q + 1) hmem, hdis (q + 1) hmem]
      ring
    · have hlen : (solvedValues m.dis_daa 96).length = 96 := by simp [solvedValues]
      have hlen2 : (solvedValues m.cha_daa 96).length = 96 := by simp [solvedValues]
      have hd : (solvedValues m.dis_daa 96).getD q 0 = 0 :=
        List.getD_eq_default _ _ (by rw [hlen]; omega)
      have hc : (solvedValues m.cha_daa 96).getD q 0 = 0 :=
        List.getD_eq_default _ _ (by rw [hlen2]; omega)
      rw [hd, hc]
      ring

/-- Witness for C6 at `n_cycles = 0`, `energy_cap = 4`, `power_cap = 4`:
the all-zero assignment is feasible. -/
theorem c6_degenerate_inputs_force_zero_witness :
    Step1.Feasible 0 4 4 zeroStep1 :=
  (c6_degenerate_inputs_force_zero 0 4 4 (by norm_num) (by norm_num) (by norm_num)).1

/-- A prior-charge vector with an out-of-range entry: position 0 holds 2. -/
def c8_prior_cha : ℕ → ℚ := fun i => if i = 0 then 2 else 0

/-- C8 counterexample: for the out-of-range prior vector `c8_prior_cha`
(entry 2 at quarter 1) with `n_cycles = 1`, `energy_cap = 4`,
`power_cap = 4`, Stage 2 builds its LP unconditionally and that LP has no
feasible assignment — the charge-rate constraint `cha_ida[1] + 2 ≤ 1`
contradicts `cha_ida[1] ≥ 0`.  There is no precondition check and no
immediate report; the violation surfaces only as infeasibility of the
solved model. -/
theorem c8_no_precondition_check_counterexample :
    ¬ ∃ m : Step2Vars, Step2.Feasible 1 4 4 c8_prior_cha zeroFn m := by
  rintro ⟨m, hm⟩
  have h1 : (1 : ℕ) ∈ Finset.Icc 1 96 := by decide
  have hrate := hm.2.2.2.2.2.2.2.2.2.1 1 h1
  have hb := (hm.2.2.2.2.2.2.2.2.2.2.2 1 h1).1.1
  unfold Step2.charge_rate_limit at hrate
  norm_num [c8_prior_cha] at hrate
  linarith

/-- C8 amended: Stages 2 and 3 perform no validation of the prior-position
vectors; the LP is always built and handed to the solver.  A prior-charge
entry greater than 1 at any quarter makes the built LP infeasible (via the
charge-rate constraint), so the violation surfaces as an infeasible solve,
not as an immediately reported precondition failure. -/
theorem c8_out_of_range_prior_infeasible (n e p : ℚ) (pc pd : ℕ → ℚ)
    (q : ℕ) (hq : q ∈ Finset.Icc 1 96) (hbad : 1 < pc (q - 1)) :
    (¬ ∃ m : Step2Vars, Step2.Feasible n e p pc pd m) ∧
    (¬ ∃ m : Step3Vars, Step3.Feasible n e p pc pd m) := by
  constructor
  · rintro ⟨m, hm⟩
    have hrate := hm.2.2.2.2.2.2.2.2.2.1 q hq
    have hb := (hm.2.2.2.2.2.2.2.2.2.2.2 q hq).1.1
    unfold Step2.charge_rate_limit at hrate
    linarith
  · rintro ⟨m, hm⟩
    have hrate := hm.2.2.2.2.2.2.2.2.2.1 q hq
    have hb := (hm.2.2.2.2.2.2.2.2.2.2.2 q hq).1.1
    unfold Step3.charge_rate_limit at hrate
    linarith

/-- Witness for C8 at the concrete out-of-range prior `c8_prior_cha` and
quarter 1. -/
theorem c8_out_of_range_prior_infeasible_witness :
    (¬ ∃ m : Step2Vars, Step2.Feasible 1 4 4 c8_prior_cha zeroFn m) ∧
    (¬ ∃ m : Step3Vars, Step3.Feasible 1 4 4 c8_prior_cha zeroFn m) :=
  c8_out_of_range_prior_infeasible 1 4 4 c8_prior_cha zeroFn 1
    (by decide) (by norm_num [c8_prior_cha])

/-- A solver value map carrying `1e-9`-scale rounding noise above the upper
bound 1. -/
def c9_noisy : ℕ → ℚ := fun _ => 1 + 1 / 1000000000

/-- C9 counterexample: the value-retrieval step (source lines 193-195,
379-383) returns raw solver values without clamping, so for a solver output
whose values exceed 1 by rounding noise the returned entry also exceeds 1 —
refuting the claim that every returned entry lies in `[0,1]`. -/
theorem c9_no_clamping_counterexample :
    ¬ ((solvedValues c9_noisy 96).getD 0 0 ≤ 1) := by
  rw [solvedValues_getD c9_noisy 96 0 (by norm_num)]
  norm_num [c9_noisy]

/-- C9 amended: each stage's returned vectors are the solver's raw variable
values, unmodified: the retrieved list has one entry per quarter and entry
`i` equals the raw value at pyomo index `i + 1`.  No clamping to `[0,1]` is
applied (values outside the bounds are returned as-is), and no error is
raised for such values. -/
theorem c9_raw_values_returned (v : ℕ → ℚ) (n : ℕ) :
    (solvedValues v n).length = n ∧
    ∀ i < n, (solvedValues v n).getD i 0 = v (i + 1) := by
  refine ⟨by simp [solvedValues], fun i hi => solvedValues_getD v n i hi⟩

/-- Witness for C9: the noisy value map is returned unchanged at entry 0. -/
theorem c9_raw_values_returned_witness :
    (solvedValues c9_noisy 96).getD 0 0 = c9_noisy 1 :=
  (c9_raw_values_returned c9_noisy 96).2 0 (by norm_num)

end BessOptimizer
